import Mathlib

/-!
Verification of the PEAC protocol receipt core (Python sources under
src/) against its natural-language specification.

The development shallowly embeds:
* the JSON data model used by the CLI receipts (src/cli/peac.py),
* the receipt schema check (pydantic model PeacReceipt),
* issuance (PeacCLI.sign_receipt) and verification (PeacCLI.verify_receipt),
  with the jwcrypto JWS object modelled as a compact-JWS container
  (protected header, payload, signature segment) obeying jwcrypto's
  actual property semantics: JWS.jose_header returns the merged header
  as a dict (so json.loads applied to it raises TypeError), and
  JWS.payload raises InvalidJWSOperation("Payload not verified") unless
  token.verify has been called — which verify_receipt never does,
* the anti-replay nonce cache (src/archived/core/ed25519/python/nonce_cache.py),
* the low-level Ed25519 signer/verifier
  (src/core/ed25519/python/sign.py,
   src/packages/sdk-js/core/ed25519/python/verify.py) and the archived SDK
  variants (src/archived/core/sdk/python/peac_sdk.py).

Cryptographic primitives (Ed25519 signing, public-key derivation) are
modelled symbolically: a signature is a term recording the signing seed
and the canonical message text, and verification succeeds exactly when
the signature term matches the message and the public key derived from
its seed.  Likewise the base64 text of a symbolic byte string is a
dedicated constructor, while arbitrary caller strings are decoded by a
concrete base64 decoder mirroring Python's base64.b64decode.  Wall-clock
reads (time.time, datetime.now) are passed as explicit parameters or
omitted where no claim observes them.  Python exceptions are modelled by
Except / explicit error results.
-/

namespace Peac

/-- JSON values, as produced by Python's json module on receipt payloads:
null, booleans, (integer) numbers, strings, arrays, objects.  Objects are
ordered key/value lists, mirroring Python dict insertion order. -/
inductive Json where
  | null : Json
  | bool : Bool → Json
  | num : Int → Json
  | str : String → Json
  | arr : List Json → Json
  | obj : List (String × Json) → Json

/-- A Python dict with string keys holding JSON values. -/
abbrev Dict := List (String × Json)

/-- Python dict assignment d[k] = v: overwrite in place if the key is
present (keeping its position), otherwise append at the end. -/
def setKey : Dict → String → Json → Dict
  | [], k, v => [(k, v)]
  | (k1, v1) :: rest, k, v =>
      if k1 = k then (k1, v) :: rest else (k1, v1) :: setKey rest k v

theorem lookup_setKey_self (d : Dict) (k : String) (v : Json) :
    (setKey d k v).lookup k = some v := by
  induction d with
  | nil => simp [setKey, List.lookup_cons]
  | cons hd tl ih =>
      obtain ⟨k1, v1⟩ := hd
      rcases eq_or_ne k1 k with hk | hk
      · subst hk
        simp [setKey, List.lookup_cons]
      · simp [setKey, hk, List.lookup_cons, beq_eq_false_iff_ne.mpr (Ne.symm hk), ih]

theorem lookup_setKey_ne (d : Dict) (k k2 : String) (v : Json) (h : k2 ≠ k) :
    (setKey d k v).lookup k2 = d.lookup k2 := by
  induction d with
  | nil => simp [setKey, List.lookup_cons, beq_eq_false_iff_ne.mpr h]
  | cons hd tl ih =>
      obtain ⟨k1, v1⟩ := hd
      rcases eq_or_ne k1 k with hk | hk
      · subst hk
        simp [setKey, List.lookup_cons, beq_eq_false_iff_ne.mpr h]
      · simp only [setKey, if_neg hk, List.lookup_cons]
        cases h2 : k2 == k1 <;> simp [ih]

/-- pydantic acceptance for a required field annotated Dict[str, Any]:
the value must be present and be a JSON object. -/
def isObjVal : Option Json → Bool
  | some (.obj _) => true
  | _ => false

/-- pydantic acceptance for a required field annotated str. -/
def isStrVal : Option Json → Bool
  | some (.str _) => true
  | _ => false

/-- pydantic acceptance for Optional[Dict[str, Any]] = None: the field
may be absent, null, or an object. -/
def optObjOk : Option Json → Bool
  | none => true
  | some .null => true
  | some (.obj _) => true
  | _ => false

/-- The PeacReceipt pydantic schema (src/cli/peac.py lines 21-29):
required object fields subject, aipref, enforcement; required string
fields issued_at, kid; optional object fields payment, ext.  Extra keys
are ignored (pydantic default). -/
def validReceipt (d : Dict) : Bool :=
  isObjVal (d.lookup "subject") && isObjVal (d.lookup "aipref") &&
  isObjVal (d.lookup "enforcement") && isStrVal (d.lookup "issued_at") &&
  isStrVal (d.lookup "kid") && optObjOk (d.lookup "payment") &&
  optObjOk (d.lookup "ext")

/-- A loaded jwcrypto Ed25519 key (jwk.JWK), identified by its key
material; only its identity is observable in the embedded code (it is
used as the signer in sign_receipt; verification never reaches a key). -/
structure JwkKey where
  x : String
deriving DecidableEq

/-- PeacCLI state: the preloaded key store mapping kid to loaded key
(src/cli/peac.py lines 35-38: self.keys). -/
structure PeacCLI where
  keys : List (String × JwkKey)

/-- A text string that may carry JSON.  Texts produced by json_encode
are the ofJson constructor; arbitrary other texts (including non-JSON)
are raw.  json.loads is total on the former and raises on the latter;
this two-sort view abstracts the concrete json round-trip. -/
inductive JsonText where
  | ofJson : Json → JsonText
  | raw : String → JsonText

/-- json.loads on a JsonText: returns the carried value, or fails. -/
def jsonTextParse : JsonText → Option Json
  | .ofJson j => some j
  | .raw _ => none

/-- The decoded signature segment of a compact JWS: either a genuine
EdDSA signature produced by jwcrypto add_signature over the signing
input (protected header and payload), or arbitrary other bytes (for
example a tampered segment). -/
inductive SigSeg where
  | eddsa : JwkKey → JsonText → JsonText → SigSeg
  | junk : String → SigSeg

/-- A compact JWS token that deserializes: three segments carrying the
protected-header text, the payload text and the signature bytes. -/
structure RawToken where
  headerText : JsonText
  payloadText : JsonText
  sigSeg : SigSeg

/-- Input to verify_receipt: an arbitrary string either fails jwcrypto
deserialization (malformed framing or undecodable segments) or yields a
three-segment token. -/
inductive JwsInput where
  | malformed : String → JwsInput
  | token : RawToken → JwsInput

/-- ValueError raised by sign_receipt. -/
inductive SignErr where
  | keyNotFound : String → SignErr
  | invalidSchema : SignErr
deriving DecidableEq

/-- Outcome of sign_receipt, together with the caller's receipt dict
after the call (Python passes the dict by reference and the method may
mutate it in place). -/
structure SignOutcome where
  result : Except SignErr RawToken
  receiptAfter : Dict

/-- PeacCLI.sign_receipt (src/cli/peac.py lines 73-92): check the kid is
loaded, validate the receipt schema, force receipt['kid'] = kid (an
in-place mutation of the caller's dict), then build the compact JWS with
protected header alg=EdDSA, kid. -/
def signReceipt (cli : PeacCLI) (receipt : Dict) (kid : String) : SignOutcome :=
  match cli.keys.lookup kid with
  | none => { result := .error (.keyNotFound kid), receiptAfter := receipt }
  | some signingKey =>
      if validReceipt receipt then
        let receipt2 := setKey receipt "kid" (.str kid)
        let headerJ : Json := .obj [("alg", .str "EdDSA"), ("kid", .str kid)]
        { result := .ok { headerText := .ofJson headerJ,
                          payloadText := .ofJson (.obj receipt2),
                          sigSeg := .eddsa signingKey (.ofJson headerJ)
                                      (.ofJson (.obj receipt2)) },
          receiptAfter := receipt2 }
      else { result := .error .invalidSchema, receiptAfter := receipt }

/-- The exceptions verify_receipt's except-handler can catch (the
handler stores str(e) as the result's error field; the constructors
model the distinct messages).  Only the first three are reachable:
jwcrypto deserialization failure, the ValueError raised while
JWS.jose_header json-decodes a non-JSON protected segment, and the
TypeError from json.loads applied to the dict that JWS.jose_header
returns (src/cli/peac.py line 102).  The remaining constructors record
the later raise sites present in the source text — missing kid (line
106), key not found (line 118), InvalidJWSOperation("Payload not
verified") from token.payload (line 121, token.verify is never called),
and kid mismatch (line 129) — which are unreachable because the
TypeError at line 102 fires first on every deserializable token; they
are retained so theorems can state what the code never returns. -/
inductive VerifyErr where
  | invalidJwsObject : VerifyErr
  | headerDecodeError : VerifyErr
  | headerTypeError : VerifyErr
  | missingKid : VerifyErr
  | keyNotFound : Json → VerifyErr
  | payloadNotVerified : VerifyErr
  | kidMismatch : Json → Option Json → VerifyErr

/-- The structured result dict of verify_receipt.  The verification
metadata block is modelled by sigMarker (its 'signature' entry, present
on every path), schemaMarker and keyId (its 'schema' and 'key_id'
entries, present only on success); its wall-clock 'timestamp' entry is
not modelled as no claim observes it. -/
structure VerifyResult where
  valid : Bool
  header : Option Json
  payload : Option Dict
  error : Option VerifyErr
  sigMarker : String
  schemaMarker : Option String
  keyId : Option Json

/-- The failure dict built by verify_receipt's except-handler
(src/cli/peac.py lines 143-151): valid false, the error, and a
verification block marking the signature invalid. -/
def failResult (e : VerifyErr) : VerifyResult :=
  { valid := false, header := none, payload := none, error := some e,
    sigMarker := "invalid", schemaMarker := none, keyId := none }

/-- PeacCLI.verify_receipt (src/cli/peac.py lines 94-151).  The whole
body runs inside try/except Exception, so every raise becomes a
valid=false result and no exception propagates.  Control flow on the
real jwcrypto: a string that fails token.deserialize raises
InvalidJWSObject; on a deserialized token, JWS.jose_header builds the
merged header dict (json-decoding the protected segment, a ValueError
on non-JSON text), and then json.loads(token.jose_header) at line 102
raises TypeError because its argument is a dict, not a string.  The
function therefore returns a failure result for every input.  Even past
that line, token.payload at line 121 would raise
InvalidJWSOperation("Payload not verified"), since token.verify is
never called with the resolved key.  The later source code — the
missing-kid check (line 106), key resolution (lines 108-118), schema
validation, the kid-consistency check (line 128) and the valid=true
success dict — is unreachable, and the caller-supplied key set and the
CLI's key store are never consulted. -/
def verifyReceipt (cli : PeacCLI) (inp : JwsInput)
    (optKeys : Option (List (String × Dict))) : VerifyResult :=
  match inp with
  | .malformed _ => failResult .invalidJwsObject
  | .token t =>
      match jsonTextParse t.headerText with
      | none => failResult .headerDecodeError
      | some _ => failResult .headerTypeError

/-! ### Nonce cache (src/archived/core/ed25519/python/nonce_cache.py) -/

/-- NONCE_TTL = 5 * 60 seconds. -/
def NONCE_TTL : Int := 5 * 60

/-- The in-memory replay ledger: self.nonces maps each admitted nonce to
the wall-clock time of its admission. -/
structure NonceCache where
  nonces : List (String × Int)

/-- NonceCache.add (lines 15-24).  `now` is int(time.time() * 1000),
passed explicitly.  Rejects a nonce already in the ledger, then a
claimed timestamp more than NONCE_TTL * 1000 ms from now in either
direction; otherwise records the nonce and accepts.  New entries are
recorded at the head: only ledger membership is ever queried. -/
def NonceCache.add (c : NonceCache) (now : Int) (nonce : String)
    (timestamp : Int) : Bool × NonceCache :=
  if (c.nonces.lookup nonce).isSome then (false, c)
  else if |now - timestamp| > NONCE_TTL * 1000 then (false, c)
  else (true, ⟨(nonce, now) :: c.nonces⟩)

/-- NonceCache.clear (lines 26-27): reset the ledger. -/
def NonceCache.clear (_ : NonceCache) : NonceCache := ⟨[]⟩

/-! ### Low-level Ed25519 scheme -/

/-- Byte strings handled by the low-level scheme: either concrete octet
lists, or symbolic 64-byte Ed25519 signatures (recording the signing
seed and the canonical message text), or symbolic 32-byte public keys
derived from a seed. -/
inductive Bytes where
  | concrete : List Nat → Bytes
  | sigOf : Bytes → String → Bytes
  | pubOf : Bytes → Bytes
deriving DecidableEq

/-- Length in bytes: Ed25519 signatures are 64 bytes and public keys 32
bytes. -/
def blen : Bytes → Nat
  | .concrete l => l.length
  | .sigOf _ _ => 64
  | .pubOf _ => 32

/-- Python strings passed as base64 arguments: either arbitrary literal
text, or the base64 text of a symbolic byte string. -/
inductive Str where
  | lit : String → Str
  | b64of : Bytes → Str
deriving DecidableEq

/-- The 6-bit value of a base64 alphabet character. -/
def b64val (c : Char) : Option Nat :=
  if 'A' ≤ c ∧ c ≤ 'Z' then some (c.toNat - 65)
  else if 'a' ≤ c ∧ c ≤ 'z' then some (c.toNat - 71)
  else if '0' ≤ c ∧ c ≤ '9' then some (c.toNat + 4)
  else if c = '+' then some 62
  else if c = '/' then some 63
  else none

/-- Decode a list of 6-bit values into octets, quad by quad; a single
leftover character cannot carry a full octet and is an error. -/
def b64group : List Nat → Option (List Nat)
  | [] => some []
  | [_] => none
  | [a, b] => some [a * 4 + b / 16]
  | [a, b, c] => some [a * 4 + b / 16, b % 16 * 16 + c / 4]
  | a :: b :: c :: d :: rest =>
      match b64group rest with
      | some bs => some ([a * 4 + b / 16, b % 16 * 16 + c / 4, c % 4 * 64 + d] ++ bs)
      | none => none

/-- base64.b64decode on an arbitrary literal string (Python default
validate=False): characters outside the alphabet and '=' are discarded,
the kept length must be a multiple of 4, and the 6-bit groups before the
first '=' padding are decoded.  none models a binascii.Error raise. -/
def litB64decode (s : String) : Option (List Nat) :=
  let kept := s.data.filter (fun c => (b64val c).isSome || c == '=')
  if kept.length % 4 = 0 then
    b64group ((kept.takeWhile (fun c => c != '=')).filterMap b64val)
  else none

/-- base64.b64decode on a Str: the base64 text of a symbolic byte string
decodes back to it; literal text goes through the concrete decoder. -/
def b64decode : Str → Option Bytes
  | .lit s => (litB64decode s).map Bytes.concrete
  | .b64of b => some b

/-- Ed25519 public-key derivation from a signing seed, modelled as an
injective symbolic constructor: the embedding relies only on derivation
being deterministic and collision-free. -/
def derivePublicKey (seed : Bytes) : Bytes := .pubOf seed

/-- Symbolic Ed25519 verification (nacl VerifyKey.verify on well-formed
inputs): a signature term checks out against a message text and public
key exactly when it was produced over that same text by the seed the key
derives from; false models the BadSignatureError branch. -/
def edCheck (canonical : String) (sg pk : Bytes) : Bool :=
  match sg with
  | .sigOf seed msg => msg == canonical && derivePublicKey seed == pk
  | _ => false

/-- Exceptions of the low-level scheme that are NOT caught: base64
decode errors (binascii.Error) and the wrong-length key/signature checks
of nacl (which raises, not BadSignatureError, for these). -/
inductive Ed25519Err where
  | b64DecodeError : Ed25519Err
  | badSeedLength : Ed25519Err
  | badPubKeyLength : Ed25519Err
  | badSigLength : Ed25519Err
deriving DecidableEq

/-- src/core/ed25519/python/sign.py lines 10-14: decode the seed, build
SigningKey (raises unless exactly 32 bytes), sign the UTF-8 bytes of
message + nonce + str(timestamp) (plain concatenation, no separators),
return the base64 signature. -/
def sign (message : String) (private_key_b64 : Str) (nonce : String)
    (timestamp : Int) : Except Ed25519Err Str :=
  match b64decode private_key_b64 with
  | none => .error .b64DecodeError
  | some seed =>
      if blen seed = 32 then
        .ok (.b64of (.sigOf seed (message ++ nonce ++ toString timestamp)))
      else .error .badSeedLength

/-- src/packages/sdk-js/core/ed25519/python/verify.py lines 11-18:
decode the public key and build VerifyKey (raises unless exactly 32
bytes), rebuild the same canonical bytes as sign, then inside
try/except BadSignatureError decode the signature (decode errors and the
64-byte length check raise and are not caught) and check it; the
BadSignatureError branch returns False. -/
def verify (message : String) (signature_b64 : Str) (public_key_b64 : Str)
    (nonce : String) (timestamp : Int) : Except Ed25519Err Bool :=
  match b64decode public_key_b64 with
  | none => .error .b64DecodeError
  | some pk =>
      if blen pk = 32 then
        match b64decode signature_b64 with
        | none => .error .b64DecodeError
        | some sg =>
            if blen sg = 64 then
              .ok (edCheck (message ++ nonce ++ toString timestamp) sg pk)
            else .error .badSigLength
      else .error .badPubKeyLength

/-- src/archived/core/sdk/python/peac_sdk.py lines 10-17: the archived
SDK signer signs the UTF-8 bytes of the f-string
"{message}|{nonce}|{timestamp}", that is, pipe-SEPARATED fields. -/
def sign_message (message : String) (private_key_b64 : Str) (nonce : String)
    (timestamp : Int) : Except Ed25519Err Str :=
  match b64decode private_key_b64 with
  | none => .error .b64DecodeError
  | some seed =>
      if blen seed = 32 then
        .ok (.b64of (.sigOf seed
          (message ++ "|" ++ nonce ++ "|" ++ toString timestamp)))
      else .error .badSeedLength

/-- src/archived/core/sdk/python/peac_sdk.py lines 19-29: the archived
SDK verifier, checking the same pipe-separated canonical string as
sign_message, with the same error structure as verify. -/
def verify_message (message : String) (signature_b64 : Str)
    (public_key_b64 : Str) (nonce : String) (timestamp : Int) :
    Except Ed25519Err Bool :=
  match b64decode public_key_b64 with
  | none => .error .b64DecodeError
  | some pk =>
      if blen pk = 32 then
        match b64decode signature_b64 with
        | none => .error .b64DecodeError
        | some sg =>
            if blen sg = 64 then
              .ok (edCheck (message ++ "|" ++ nonce ++ "|" ++ toString timestamp) sg pk)
            else .error .badSigLength
      else .error .badPubKeyLength

/-! ## Claim C1: envelope round-trip -/

/-- A schema-valid receipt payload for the C1 failing input. -/
def receiptC1 : Dict :=
  [("subject", .obj []), ("aipref", .obj []), ("enforcement", .obj []),
   ("issued_at", .str "2025-01-01T00:00:00Z"), ("kid", .str "old")]

/-- A CLI with signing key k1, for the C1 failing input. -/
def cliC1 : PeacCLI := ⟨[("k1", ⟨"xw"⟩)]⟩

/-- Claim C1 is contradicted by the code: issuance of a schema-valid
payload under a loaded kid succeeds, but verifying the issued envelope
with the matching key resolvable returns valid = false with the
TypeError from json.loads(token.jose_header), never valid = true with
the echoed payload — the verification path dies at line 102 on every
input (and token.payload would raise "Payload not verified" regardless,
token.verify never being called). -/
theorem envelope_roundtrip_broken :
    validReceipt receiptC1 = true ∧
    cliC1.keys.lookup "k1" = some ⟨"xw"⟩ ∧
    ((signReceipt cliC1 receiptC1 "k1").result.map
        (fun tok => (verifyReceipt cliC1 (.token tok) none).valid)) = .ok false ∧
    ((signReceipt cliC1 receiptC1 "k1").result.map
        (fun tok => (verifyReceipt cliC1 (.token tok) none).error)) =
      .ok (some .headerTypeError) :=
  ⟨rfl, rfl, rfl, rfl⟩

/-! ## Claim C2: verification failure modes -/

/-- Claim C2: for every input (in particular each of the claimed failure
modes: malformed framing, undecodable segments, missing kid,
unresolvable kid, schema-invalid payload, kid mismatch, bad signature)
and every optional key set, verify_receipt returns a structured result
with valid = false and an error description instead of propagating an
exception: the whole body runs inside try/except Exception, and the
json.loads(token.jose_header) TypeError makes verification fail closed
on every deserializable token, so no input can reach a raise that the
handler does not catch. -/
theorem verify_receipt_structured_failure (cli : PeacCLI) (inp : JwsInput)
    (optKeys : Option (List (String × Dict))) :
    (verifyReceipt cli inp optKeys).valid = false ∧
    (verifyReceipt cli inp optKeys).error.isSome = true := by
  obtain ⟨s⟩ | ⟨ht, pt, sg⟩ := inp
  · exact ⟨rfl, rfl⟩
  · cases ht <;> exact ⟨rfl, rfl⟩

/-! ## Claim C6: verification-key resolution precedence -/

/-- A well-formed Ed25519 OKP JWK dict supplied by the caller in the C6
failing input. -/
def okpC6 : Dict :=
  [("kty", .str "OKP"), ("crv", .str "Ed25519"), ("x", .str "xo")]

/-- A CLI whose store also holds kid k6. -/
def cliC6 : PeacCLI := ⟨[("k6", ⟨"x6"⟩)]⟩

/-- A schema-valid payload naming kid k6. -/
def receiptC6 : Dict :=
  [("subject", .obj []), ("aipref", .obj []), ("enforcement", .obj []),
   ("issued_at", .str "2025-05-05T00:00:00Z"), ("kid", .str "k6")]

/-- A deserializable envelope with header kid k6. -/
def tokC6 : RawToken :=
  { headerText := .ofJson (.obj [("alg", .str "EdDSA"), ("kid", .str "k6")]),
    payloadText := .ofJson (.obj receiptC6),
    sigSeg := .junk "s6" }

/-- Claim C6 is contradicted by the code: at an envelope whose kid is
present in both the caller-supplied key set and the preloaded store,
verification returns valid = false with the line-102 TypeError — the
resolution code at lines 108-118 is unreachable, no key is ever
resolved from either source, the key-not-found error is never produced,
and the result is identical when both key sets are empty. -/
theorem key_resolution_unreachable :
    (verifyReceipt cliC6 (.token tokC6) (some [("k6", okpC6)])).valid = false ∧
    (verifyReceipt cliC6 (.token tokC6) (some [("k6", okpC6)])).error =
      some .headerTypeError ∧
    (∀ kv, (verifyReceipt cliC6 (.token tokC6) (some [("k6", okpC6)])).error ≠
        some (.keyNotFound kv)) ∧
    verifyReceipt cliC6 (.token tokC6) (some [("k6", okpC6)]) =
      verifyReceipt ⟨[]⟩ (.token tokC6) none := by
  refine ⟨rfl, rfl, ?_, rfl⟩
  intro kv hc
  simp [verifyReceipt, tokC6, jsonTextParse, failResult] at hc

/-! ## Claim C7: kid mismatch as a distinct failure -/

/-- Payload for C7's failing input: schema-valid, kid "other". -/
def receiptC7 : Dict :=
  [("subject", .obj []), ("aipref", .obj []), ("enforcement", .obj []),
   ("issued_at", .str "2025-03-03T00:00:00Z"), ("kid", .str "other")]

/-- A CLI with a loaded key for kid k7. -/
def cliC7 : PeacCLI := ⟨[("k7", ⟨"x7"⟩)]⟩

/-- A hand-edited envelope: header kid k7, payload kid "other". -/
def mismatchC7 : RawToken :=
  { headerText := .ofJson (.obj [("alg", .str "EdDSA"), ("kid", .str "k7")]),
    payloadText := .ofJson (.obj receiptC7),
    sigSeg := .junk "zz" }

/-- Claim C7 is contradicted by the code: at a hand-edited,
otherwise-valid envelope whose payload kid differs from its header kid,
verification returns valid = false with the line-102 TypeError, never a
kid-mismatch error — the kid-consistency check at line 128 is
unreachable (token.payload at line 121 raises "Payload not verified";
json.loads(token.jose_header) raises even earlier). -/
theorem kid_mismatch_unreachable :
    validReceipt receiptC7 = true ∧
    cliC7.keys.lookup "k7" = some ⟨"x7"⟩ ∧
    (verifyReceipt cliC7 (.token mismatchC7) none).valid = false ∧
    (verifyReceipt cliC7 (.token mismatchC7) none).error =
      some .headerTypeError ∧
    ∀ h p, (verifyReceipt cliC7 (.token mismatchC7) none).error ≠
        some (.kidMismatch h p) := by
  refine ⟨rfl, rfl, rfl, rfl, ?_⟩
  intro h p hc
  simp [verifyReceipt, mismatchC7, jsonTextParse, failResult] at hc

/-! ## Claim C9: issuance mutates the caller's payload dict -/

/-- Claim C9: a successful sign_receipt call mutates the caller's dict
in place, setting its kid entry to the given kid (overwriting any prior
value) and leaving every other entry unchanged. -/
theorem sign_receipt_mutates_payload (cli : PeacCLI) (receipt : Dict)
    (kid : String) (key : JwkKey)
    (hstore : cli.keys.lookup kid = some key)
    (hschema : validReceipt receipt = true) :
    (∃ tok, (signReceipt cli receipt kid).result = .ok tok) ∧
    (signReceipt cli receipt kid).receiptAfter = setKey receipt "kid" (.str kid) ∧
    (setKey receipt "kid" (.str kid)).lookup "kid" = some (.str kid) ∧
    ∀ k2, k2 ≠ "kid" →
      (setKey receipt "kid" (.str kid)).lookup k2 = receipt.lookup k2 := by
  refine ⟨⟨{ headerText := .ofJson (.obj [("alg", .str "EdDSA"), ("kid", .str kid)]),
             payloadText := .ofJson (.obj (setKey receipt "kid" (.str kid))),
             sigSeg := .eddsa key
               (.ofJson (.obj [("alg", .str "EdDSA"), ("kid", .str kid)]))
               (.ofJson (.obj (setKey receipt "kid" (.str kid)))) }, ?_⟩, ?_,
    lookup_setKey_self receipt "kid" (.str kid),
    fun k2 h => lookup_setKey_ne receipt "kid" k2 (.str kid) h⟩
  · simp [signReceipt, hstore, hschema]
  · simp [signReceipt, hstore, hschema]

/-- Payload for the C9 witness, with a prior kid value to overwrite and
a payment entry to preserve. -/
def receiptC9 : Dict :=
  [("subject", .obj []), ("aipref", .obj []), ("enforcement", .obj []),
   ("issued_at", .str "2025-04-04T00:00:00Z"), ("kid", .str "stale"),
   ("payment", .obj [("scheme", .str "x402")])]

/-- Witness for C9: signing receiptC9 under kid k9 rewrites its kid
entry in place and keeps the payment entry. -/
theorem sign_receipt_mutates_payload_witness :
    (signReceipt ⟨[("k9", ⟨"x9"⟩)]⟩ receiptC9 "k9").receiptAfter =
      setKey receiptC9 "kid" (.str "k9") ∧
    (setKey receiptC9 "kid" (.str "k9")).lookup "kid" = some (.str "k9") ∧
    (setKey receiptC9 "kid" (.str "k9")).lookup "payment" =
      receiptC9.lookup "payment" :=
  ⟨(sign_receipt_mutates_payload ⟨[("k9", ⟨"x9"⟩)]⟩ receiptC9 "k9" ⟨"x9"⟩
      rfl rfl).2.1,
   (sign_receipt_mutates_payload ⟨[("k9", ⟨"x9"⟩)]⟩ receiptC9 "k9" ⟨"x9"⟩
      rfl rfl).2.2.1,
   (sign_receipt_mutates_payload ⟨[("k9", ⟨"x9"⟩)]⟩ receiptC9 "k9" ⟨"x9"⟩
      rfl rfl).2.2.2 "payment" (by decide)⟩

/-! ## Claim C3: NonceCache admission contract -/

/-- Claim C3: add(n, t) returns false if n is already recorded or
|now - t| > 300000 ms, and returns true recording n exactly when both
checks pass (no entry added on rejection); two successive calls with the
same nonce (the first fresh and in-window) return true then false. -/
theorem nonce_cache_admission (c : NonceCache) (now t : Int) (n : String) :
    ((c.nonces.lookup n).isSome = true → c.add now n t = (false, c)) ∧
    (|now - t| > 300000 → c.add now n t = (false, c)) ∧
    (c.nonces.lookup n = none → |now - t| ≤ 300000 →
        c.add now n t = (true, ⟨(n, now) :: c.nonces⟩)) ∧
    (∀ c2 now2 t2, c.add now n t = (true, c2) →
        c2.add now2 n t2 = (false, c2)) := by
  refine ⟨?_, ?_, ?_, ?_⟩
  · intro h
    simp [NonceCache.add, h]
  · intro h
    by_cases hmem : (c.nonces.lookup n).isSome = true
    · simp [NonceCache.add, hmem]
    · have hc : NONCE_TTL * 1000 < |now - t| := by
        unfold NONCE_TTL
        omega
      simp [NonceCache.add, hmem, hc]
  · intro hmem hwin
    have hm2 : (c.nonces.lookup n).isSome = false := by
      simp [hmem]
    have hc : ¬ NONCE_TTL * 1000 < |now - t| := by
      unfold NONCE_TTL
      omega
    simp [NonceCache.add, hm2, hc]
  · intro c2 now2 t2 hadd
    by_cases hmem : (c.nonces.lookup n).isSome = true
    · simp [NonceCache.add, hmem] at hadd
    · by_cases hwin : NONCE_TTL * 1000 < |now - t|
      · simp [NonceCache.add, hmem, hwin] at hadd
      · simp [NonceCache.add, hmem, hwin] at hadd
        have hc2 : c2 = ⟨(n, now) :: c.nonces⟩ := hadd.symm
        subst hc2
        simp [NonceCache.add, List.lookup_cons]

/-- Witness for C3 at concrete inputs: duplicate nonce rejected, stale
timestamp rejected, fresh in-window nonce admitted and then rejected on
replay. -/
theorem nonce_cache_admission_witness :
    NonceCache.add ⟨[("n0", 0)]⟩ 0 "n0" 0 = (false, ⟨[("n0", 0)]⟩) ∧
    NonceCache.add ⟨[]⟩ 0 "n1" 400000 = (false, ⟨[]⟩) ∧
    NonceCache.add ⟨[]⟩ 0 "n1" 5 = (true, ⟨[("n1", 0)]⟩) ∧
    NonceCache.add ⟨[("n1", 0)]⟩ 7 "n1" 9 = (false, ⟨[("n1", 0)]⟩) :=
  ⟨(nonce_cache_admission ⟨[("n0", 0)]⟩ 0 0 "n0").1 (by decide),
   (nonce_cache_admission ⟨[]⟩ 0 400000 "n1").2.1 (by decide),
   (nonce_cache_admission ⟨[]⟩ 0 5 "n1").2.2.1 rfl (by decide),
   (nonce_cache_admission ⟨[]⟩ 0 5 "n1").2.2.2 ⟨[("n1", 0)]⟩ 7 9 rfl⟩

/-! ## Claim C4: canonical-form agreement across implementations -/

/-- Concrete 32-byte seed used in the C4 counterexample. -/
def seedC4 : Bytes := .concrete (List.replicate 32 1)

/-- Counterexample to claim C4 as stated: at message "a", nonce "b",
timestamp 1 and the same 32-byte key, the core signer and the archived
SDK signer sign DIFFERENT canonical bytes ("ab1" versus "a|b|1") and so
produce different signatures. -/
theorem canonical_agreement_cex :
    sign "a" (.b64of seedC4) "b" 1 ≠ sign_message "a" (.b64of seedC4) "b" 1 ∧
    "a" ++ "b" ++ toString (1 : Int) ≠
      "a" ++ "|" ++ "b" ++ "|" ++ toString (1 : Int) := by
  constructor
  · intro h
    simp [sign, sign_message, b64decode, seedC4, blen] at h
    exact absurd h (by decide)
  · decide

/-- Claim C4 (amended): the core signer sign and the low-level verifier
verify agree on the separator-free canonical text message ++ nonce ++
decimalString(timestamp) — sign signs exactly those bytes and verify
accepts the resulting signature — while the archived SDK signer
sign_message instead signs the pipe-separated text message ++ "|" ++
nonce ++ "|" ++ decimalString(timestamp). -/
theorem canonical_forms (m n : String) (t : Int) (skb : Str) (seed : Bytes)
    (hdec : b64decode skb = some seed) (hlen : blen seed = 32) :
    sign m skb n t = .ok (.b64of (.sigOf seed (m ++ n ++ toString t))) ∧
    sign_message m skb n t =
      .ok (.b64of (.sigOf seed (m ++ "|" ++ n ++ "|" ++ toString t))) ∧
    verify m (.b64of (.sigOf seed (m ++ n ++ toString t)))
      (.b64of (derivePublicKey seed)) n t = .ok true := by
  refine ⟨?_, ?_, ?_⟩
  · simp [sign, hdec, hlen]
  · simp [sign_message, hdec, hlen]
  · simp [verify, b64decode, blen, derivePublicKey, edCheck]

/-- Witness for C4's amended theorem at a concrete seed and inputs. -/
theorem canonical_forms_witness :
    sign "m" (.b64of seedC4) "n" 7 =
      .ok (.b64of (.sigOf seedC4 ("m" ++ "n" ++ toString (7 : Int)))) ∧
    sign_message "m" (.b64of seedC4) "n" 7 =
      .ok (.b64of (.sigOf seedC4 ("m" ++ "|" ++ "n" ++ "|" ++ toString (7 : Int)))) ∧
    verify "m" (.b64of (.sigOf seedC4 ("m" ++ "n" ++ toString (7 : Int))))
      (.b64of (derivePublicKey seedC4)) "n" 7 = .ok true :=
  canonical_forms "m" "n" 7 (.b64of seedC4) seedC4 rfl (by decide)

/-! ## Claim C5: low-level sign/verify round-trip -/

/-- Claim C5: for every message, nonce, timestamp and Ed25519 key pair
(a seed that decodes to 32 bytes with its derived public key), verifying
the signature produced by sign returns true. -/
theorem low_level_roundtrip (m n : String) (t : Int) (skb : Str) (seed : Bytes)
    (hdec : b64decode skb = some seed) (hlen : blen seed = 32)
    (sg : Str) (hsign : sign m skb n t = .ok sg) :
    verify m sg (.b64of (derivePublicKey seed)) n t = .ok true := by
  unfold sign at hsign
  rw [hdec] at hsign
  simp [hlen] at hsign
  subst hsign
  simp [verify, b64decode, blen, derivePublicKey, edCheck]

/-- Concrete 32-byte seed used in the C5 witness. -/
def seedC5 : Bytes := .concrete (List.replicate 32 0)

/-- Witness for C5 at the inputs of the repository's own test
(message "hello-peac", nonce "abc123", timestamp 1721548812991). -/
theorem low_level_roundtrip_witness :
    verify "hello-peac"
      (.b64of (.sigOf seedC5 ("hello-peac" ++ "abc123" ++ toString (1721548812991 : Int))))
      (.b64of (derivePublicKey seedC5)) "abc123" 1721548812991 = .ok true :=
  low_level_roundtrip "hello-peac" "abc123" 1721548812991 (.b64of seedC5) seedC5
    rfl (by decide)
    (.b64of (.sigOf seedC5 ("hello-peac" ++ "abc123" ++ toString (1721548812991 : Int))))
    rfl

/-! ## Claim C8: malformed key material is a hard error -/

/-- Claim C8: whenever the supplied private-key seed or public key
decodes to other than 32 bytes, sign (and the archived SDK signer) and
verify (and the archived SDK verifier) raise a non-recoverable input
error rather than returning a result; in particular verify never
returns a boolean for a wrong-length public key. -/
theorem malformed_key_hard_error (m n : String) (t : Int) (skb pkb sgb : Str)
    (seed pk : Bytes) :
    (b64decode skb = some seed → blen seed ≠ 32 →
        sign m skb n t = .error .badSeedLength ∧
        sign_message m skb n t = .error .badSeedLength) ∧
    (b64decode pkb = some pk → blen pk ≠ 32 →
        verify m sgb pkb n t = .error .badPubKeyLength ∧
        verify_message m sgb pkb n t = .error .badPubKeyLength ∧
        ∀ b : Bool, verify m sgb pkb n t ≠ .ok b) := by
  constructor
  · intro hdec hlen
    constructor
    · simp [sign, hdec, hlen]
    · simp [sign_message, hdec, hlen]
  · intro hdec hlen
    refine ⟨?_, ?_, ?_⟩
    · simp [verify, hdec, hlen]
    · simp [verify_message, hdec, hlen]
    · intro b
      simp [verify, hdec, hlen]

/-- Witness for C8 with a 31-byte key. -/
theorem malformed_key_hard_error_witness :
    sign "m" (.b64of (.concrete (List.replicate 31 0))) "n" 1 =
      .error .badSeedLength ∧
    verify "m" (.lit "") (.b64of (.concrete (List.replicate 31 0))) "n" 1 =
      .error .badPubKeyLength :=
  ⟨((malformed_key_hard_error "m" "n" 1 (.b64of (.concrete (List.replicate 31 0)))
      (.b64of (.concrete (List.replicate 31 0))) (.lit "")
      (.concrete (List.replicate 31 0)) (.concrete (List.replicate 31 0))).1
      rfl (by decide)).1,
   ((malformed_key_hard_error "m" "n" 1 (.b64of (.concrete (List.replicate 31 0)))
      (.b64of (.concrete (List.replicate 31 0))) (.lit "")
      (.concrete (List.replicate 31 0)) (.concrete (List.replicate 31 0))).2
      rfl (by decide)).1⟩

/-! ## Claim C10: low-level verify error structure -/

/-- The two low-level verifiers share their decode/length/check shape;
this restates it as a function of the canonical text (verify and
verify_message are definitionally instances of it). -/
def verifyShape (canonical : String) (signature_b64 public_key_b64 : Str) :
    Except Ed25519Err Bool :=
  match b64decode public_key_b64 with
  | none => .error .b64DecodeError
  | some pk =>
      if blen pk = 32 then
        match b64decode signature_b64 with
        | none => .error .b64DecodeError
        | some sg =>
            if blen sg = 64 then
              .ok (edCheck canonical sg pk)
            else .error .badSigLength
      else .error .badPubKeyLength

theorem verify_eq_shape (m n : String) (t : Int) (sgb pkb : Str) :
    verify m sgb pkb n t = verifyShape (m ++ n ++ toString t) sgb pkb := rfl

theorem verify_message_eq_shape (m n : String) (t : Int) (sgb pkb : Str) :
    verify_message m sgb pkb n t =
      verifyShape (m ++ "|" ++ n ++ "|" ++ toString t) sgb pkb := rfl

theorem verifyShape_no_ok (canonical : String) (sgb pkb : Str)
    (hbad : b64decode pkb = none ∨ b64decode sgb = none ∨
      ∃ sg, b64decode sgb = some sg ∧ blen sg ≠ 64) :
    ∀ b : Bool, verifyShape canonical sgb pkb ≠ .ok b := by
  intro b hcon
  rcases hpk : b64decode pkb with _ | pk
  · simp [verifyShape, hpk] at hcon
  · by_cases h32 : blen pk = 32
    · rcases hsg : b64decode sgb with _ | sg
      · simp [verifyShape, hpk, h32, hsg] at hcon
      · by_cases h64 : blen sg = 64
        · rcases hbad with hbad | hbad | ⟨sg2, hsg2, hlen2⟩
          · rw [hbad] at hpk
            exact Option.noConfusion hpk
          · rw [hbad] at hsg
            exact Option.noConfusion hsg
          · rw [hsg2] at hsg
            have he : sg2 = sg := by
              injection hsg
            rw [he] at hlen2
            exact hlen2 h64
        · simp [verifyShape, hpk, h32, hsg, h64] at hcon
    · simp [verifyShape, hpk, h32] at hcon

theorem verifyShape_ok_false (canonical : String) (sgb pkb : Str) :
    verifyShape canonical sgb pkb = .ok false ↔
      ∃ pk sg, b64decode pkb = some pk ∧ blen pk = 32 ∧
        b64decode sgb = some sg ∧ blen sg = 64 ∧
        edCheck canonical sg pk = false := by
  constructor
  · intro hok
    rcases hpk : b64decode pkb with _ | pk
    · simp [verifyShape, hpk] at hok
    · by_cases h32 : blen pk = 32
      · rcases hsg : b64decode sgb with _ | sg
        · simp [verifyShape, hpk, h32, hsg] at hok
        · by_cases h64 : blen sg = 64
          · refine ⟨pk, sg, rfl, h32, rfl, h64, ?_⟩
            simp [verifyShape, hpk, h32, hsg, h64] at hok
            exact hok
          · simp [verifyShape, hpk, h32, hsg, h64] at hok
      · simp [verifyShape, hpk, h32] at hok
  · rintro ⟨pk, sg, hpk, h32, hsg, h64, hchk⟩
    simp [verifyShape, hpk, h32, hsg, h64, hchk]

/-- Claim C10: verify propagates an exception (rather than returning
false) whenever the public key or signature is not decodable base64 or
the decoded signature is not 64 bytes; a boolean false is produced
exactly when Ed25519 verification of well-formed inputs fails.  The
archived SDK verify_message has the same structure over its own
canonical text. -/
theorem verify_error_structure (m n : String) (t : Int) (sgb pkb : Str) :
    ((b64decode pkb = none ∨ b64decode sgb = none ∨
       (∃ sg, b64decode sgb = some sg ∧ blen sg ≠ 64)) →
        ∀ b : Bool, verify m sgb pkb n t ≠ .ok b) ∧
    (verify m sgb pkb n t = .ok false ↔
        ∃ pk sg, b64decode pkb = some pk ∧ blen pk = 32 ∧
          b64decode sgb = some sg ∧ blen sg = 64 ∧
          edCheck (m ++ n ++ toString t) sg pk = false) ∧
    ((b64decode pkb = none ∨ b64decode sgb = none ∨
       (∃ sg, b64decode sgb = some sg ∧ blen sg ≠ 64)) →
        ∀ b : Bool, verify_message m sgb pkb n t ≠ .ok b) ∧
    (verify_message m sgb pkb n t = .ok false ↔
        ∃ pk sg, b64decode pkb = some pk ∧ blen pk = 32 ∧
          b64decode sgb = some sg ∧ blen sg = 64 ∧
          edCheck (m ++ "|" ++ n ++ "|" ++ toString t) sg pk = false) := by
  refine ⟨?_, ?_, ?_, ?_⟩
  · intro hbad b
    rw [verify_eq_shape]
    exact verifyShape_no_ok _ sgb pkb hbad b
  · rw [verify_eq_shape]
    exact verifyShape_ok_false _ sgb pkb
  · intro hbad b
    rw [verify_message_eq_shape]
    exact verifyShape_no_ok _ sgb pkb hbad b
  · rw [verify_message_eq_shape]
    exact verifyShape_ok_false _ sgb pkb

/-- Witness for C10: the literal string "QQ" is not decodable base64
(two kept characters, not a multiple of four), so verify propagates the
error; and a junk-free mismatch returns .ok false. -/
theorem verify_error_structure_witness :
    (∀ b : Bool, verify "m" (.lit "QQ") (.b64of (derivePublicKey seedC5)) "n" 1 ≠ .ok b) ∧
    verify "m" (.b64of (.sigOf seedC5 "other")) (.b64of (derivePublicKey seedC5)) "n" 1 =
      .ok false :=
  ⟨(verify_error_structure "m" "n" 1 (.lit "QQ") (.b64of (derivePublicKey seedC5))).1
      (Or.inr (Or.inl (by decide))),
   (verify_error_structure "m" "n" 1 (.b64of (.sigOf seedC5 "other"))
      (.b64of (derivePublicKey seedC5))).2.1.mpr
      ⟨derivePublicKey seedC5, .sigOf seedC5 "other", rfl, rfl, rfl, rfl, by decide⟩⟩

end Peac
